import Mathlib

set_option autoImplicit false

/-!
Verification development for the incubator-application filler.

The source program is embedded shallowly: each Python function that the
specification talks about becomes a Lean definition over explicit data,
the LLM backend becomes an oracle argument (a function from a question to
an optional response, where a missing response models a raised exception),
and file I/O is dropped in favour of the pure values that would be written.
-/

/-! ## Python string primitives used by the source -/

/-- Characters stripped by Python's `str.strip()` (ASCII whitespace). -/
def pyIsSpace (c : Char) : Bool :=
  c == ' ' || c == '\t' || c == '\n' || c == '\r' || c == '\x0b' || c == '\x0c'

/-- Python `str.strip()`: drop leading and trailing whitespace. -/
def pyStrip (s : String) : String :=
  ⟨((s.data.dropWhile pyIsSpace).reverse.dropWhile pyIsSpace).reverse⟩

/-- Python `s[:m]` for an integer bound `m` (negative bounds count from the end). -/
def pySliceTo (s : String) (m : Int) : String :=
  if 0 ≤ m then ⟨s.data.take m.toNat⟩
  else ⟨s.data.take ((s.data.length : Int) + m).toNat⟩

/-- Python `str.startswith`, expressed over the character list. -/
def strStartsWith (s p : String) : Bool :=
  p.data.isPrefixOf s.data

/-- Python truthiness of an optional string (`None` and `""` are falsy). -/
def truthy (v : Option String) : Bool :=
  match v with
  | none => false
  | some s => !(s == "")

/-! ## Profile schema documents

A profile document is the property tree obtained from `yaml.safe_load`:
each section may be absent (`none`), and inside a section each field may be
absent. `Option.none` models both a missing key and an explicit `null`,
which pydantic treats alike for `Optional` fields defaulting to `None`.
Leaves are already typed; documents whose leaves have the wrong primitive
type are outside this model. -/

/-- Source document shape for `TeamMember`. Education entries and similar
`Dict[str, str]` values are insertion-ordered key/value lists. -/
structure TeamMemberDoc where
  full_name : Option String
  role : Option String
  email : Option String
  linkedin : Option String
  github : Option String
  bio : Option String
  skills : Option (List String)
  years_experience : Option Int
  education : Option (List (List (String × String)))
  deriving DecidableEq

/-- Source document shape for `ProjectBasicInfo`. -/
structure ProjectBasicInfoDoc where
  project_name : Option String
  tagline : Option String
  website : Option String
  github_repo : Option String
  founding_date : Option String
  development_stage : Option String
  sector : Option String
  industry : Option (List String)
  deriving DecidableEq

/-- Source document shape for `ProjectDetails`. -/
structure ProjectDetailsDoc where
  problem_statement : Option String
  solution_description : Option String
  unique_value_proposition : Option String
  target_audience : Option String
  market_size : Option String
  business_model : Option String
  revenue_streams : Option (List String)
  competitors : Option (List (List (String × String)))
  traction : Option String
  roadmap : Option (List (String × String))
  deriving DecidableEq

/-- Source document shape for `TechnicalDetails`. -/
structure TechnicalDetailsDoc where
  tech_stack : Option (List String)
  intellectual_property : Option String
  scalability_approach : Option String
  current_challenges : Option (List String)
  future_technological_needs : Option (List String)
  deriving DecidableEq

/-- Source document shape for `Funding` (every field optional). -/
structure FundingDoc where
  funding_to_date : Option String
  funding_sources : Option (List String)
  current_runway : Option String
  funding_needed : Option String
  use_of_funds : Option (List (String × String))
  deriving DecidableEq

/-- Source document shape for `IncubatorPreferences`. -/
structure IncubatorPreferencesDoc where
  resources_needed : Option (List String)
  program_length_preference : Option String
  equity_willingness : Option String
  relocation_willingness : Option Bool
  remote_participation : Option Bool
  specific_mentors_desired : Option (List String)
  deriving DecidableEq

/-- Top-level profile document, six sections, each possibly absent. -/
structure ProfileDoc where
  team : Option (List TeamMemberDoc)
  basic_info : Option ProjectBasicInfoDoc
  details : Option ProjectDetailsDoc
  technical : Option TechnicalDetailsDoc
  funding : Option FundingDoc
  incubator_preferences : Option IncubatorPreferencesDoc
  deriving DecidableEq

/-- The all-absent `TeamMemberDoc`, i.e. `TeamMember(**{})`. -/
def emptyTeamMemberDoc : TeamMemberDoc :=
  { full_name := none, role := none, email := none, linkedin := none,
    github := none, bio := none, skills := none, years_experience := none,
    education := none }

/-- The all-absent `ProjectBasicInfoDoc`, i.e. `ProjectBasicInfo(**{})`. -/
def emptyBasicInfoDoc : ProjectBasicInfoDoc :=
  { project_name := none, tagline := none, website := none, github_repo := none,
    founding_date := none, development_stage := none, sector := none,
    industry := none }

/-- The all-absent `ProjectDetailsDoc`, i.e. `ProjectDetails(**{})`. -/
def emptyDetailsDoc : ProjectDetailsDoc :=
  { problem_statement := none, solution_description := none,
    unique_value_proposition := none, target_audience := none,
    market_size := none, business_model := none, revenue_streams := none,
    competitors := none, traction := none, roadmap := none }

/-- The all-absent `TechnicalDetailsDoc`, i.e. `TechnicalDetails(**{})`. -/
def emptyTechnicalDoc : TechnicalDetailsDoc :=
  { tech_stack := none, intellectual_property := none,
    scalability_approach := none, current_challenges := none,
    future_technological_needs := none }

/-- The all-absent `FundingDoc`, i.e. `Funding(**{})`. -/
def emptyFundingDoc : FundingDoc :=
  { funding_to_date := none, funding_sources := none, current_runway := none,
    funding_needed := none, use_of_funds := none }

/-- The all-absent `IncubatorPreferencesDoc`, i.e. `IncubatorPreferences(**{})`. -/
def emptyPreferencesDoc : IncubatorPreferencesDoc :=
  { resources_needed := none, program_length_preference := none,
    equity_willingness := none, relocation_willingness := none,
    remote_participation := none, specific_mentors_desired := none }

/-! ## Validated pydantic models -/

/-- Validated `TeamMember` model. -/
structure TeamMember where
  full_name : String
  role : String
  email : Option String
  linkedin : Option String
  github : Option String
  bio : String
  skills : List String
  years_experience : Int
  education : List (List (String × String))
  deriving DecidableEq

/-- Validated `ProjectBasicInfo` model. -/
structure ProjectBasicInfo where
  project_name : String
  tagline : String
  website : Option String
  github_repo : Option String
  founding_date : Option String
  development_stage : String
  sector : String
  industry : List String
  deriving DecidableEq

/-- Validated `ProjectDetails` model. -/
structure ProjectDetails where
  problem_statement : String
  solution_description : String
  unique_value_proposition : String
  target_audience : String
  market_size : Option String
  business_model : String
  revenue_streams : List String
  competitors : List (List (String × String))
  traction : Option String
  roadmap : List (String × String)
  deriving DecidableEq

/-- Validated `TechnicalDetails` model. -/
structure TechnicalDetails where
  tech_stack : List String
  intellectual_property : Option String
  scalability_approach : Option String
  current_challenges : List String
  future_technological_needs : List String
  deriving DecidableEq

/-- Validated `Funding` model (every field optional). -/
structure Funding where
  funding_to_date : Option String
  funding_sources : Option (List String)
  current_runway : Option String
  funding_needed : Option String
  use_of_funds : Option (List (String × String))
  deriving DecidableEq

/-- Validated `IncubatorPreferences` model. -/
structure IncubatorPreferences where
  resources_needed : List String
  program_length_preference : String
  equity_willingness : Option String
  relocation_willingness : Bool
  remote_participation : Bool
  specific_mentors_desired : Option (List String)
  deriving DecidableEq

/-- Validated `ProjectProfile` root model. -/
structure ProjectProfile where
  team : List TeamMember
  basic_info : ProjectBasicInfo
  details : ProjectDetails
  technical : TechnicalDetails
  funding : Funding
  incubator_preferences : IncubatorPreferences
  deriving DecidableEq

/-- Validation failure kinds surfaced by profile parsing (the Python code
wraps pydantic and YAML errors into exceptions; the kinds follow the error
taxonomy of the failures it can surface). -/
inductive ParseError where
  | missingRequiredField (fieldName : String)
  | malformedField (fieldName : String)
  | malformedSourceDocument
  deriving DecidableEq

/-- Pydantic handling of a required field: absent means a validation error. -/
def req {α : Type} (name : String) (v : Option α) : Except ParseError α :=
  match v with
  | some x => Except.ok x
  | none => Except.error (ParseError.missingRequiredField name)

/-- Shallow model of pydantic's `HttpUrl` check: an http or https scheme
followed by a non-empty remainder. -/
def isValidHttpUrl (s : String) : Bool :=
  (strStartsWith s ("http://") && decide (7 < s.data.length)) ||
    (strStartsWith s ("https://") && decide (8 < s.data.length))

/-- Shallow model of pydantic's `EmailStr` check: non-empty local part,
an `@` sign, non-empty domain. -/
def isValidEmail (s : String) : Bool :=
  let before := s.data.takeWhile (fun c => !(c == '@'))
  let after := s.data.dropWhile (fun c => !(c == '@'))
  decide (0 < before.length) && decide (1 < after.length)

/-- Pydantic handling of an `Optional[HttpUrl]` field. -/
def optUrl (name : String) (v : Option String) : Except ParseError (Option String) :=
  match v with
  | none => Except.ok none
  | some s =>
    if isValidHttpUrl s then Except.ok (some s)
    else Except.error (ParseError.malformedField name)

/-- Pydantic handling of an `Optional[EmailStr]` field. -/
def optEmail (name : String) (v : Option String) : Except ParseError (Option String) :=
  match v with
  | none => Except.ok none
  | some s =>
    if isValidEmail s then Except.ok (some s)
    else Except.error (ParseError.malformedField name)

/-- `TeamMember(**member)`: field validation in declaration order. -/
def parseTeamMember (d : TeamMemberDoc) : Except ParseError TeamMember := do
  let full_name ← req ("full_name") d.full_name
  let role ← req ("role") d.role
  let email ← optEmail ("email") d.email
  let linkedin ← optUrl ("linkedin") d.linkedin
  let github ← optUrl ("github") d.github
  let bio ← req ("bio") d.bio
  let skills ← req ("skills") d.skills
  let years_experience ← req ("years_experience") d.years_experience
  let education ← req ("education") d.education
  return { full_name, role, email, linkedin, github, bio, skills,
           years_experience, education }

/-- The `[TeamMember(**member) for member in data.get('team', [])]` comprehension. -/
def parseTeamList : List TeamMemberDoc → Except ParseError (List TeamMember)
  | [] => Except.ok []
  | d :: rest => do
    let m ← parseTeamMember d
    let ms ← parseTeamList rest
    return m :: ms

/-- `ProjectBasicInfo(**data.get('basic_info', {}))`. -/
def parseBasicInfo (d : ProjectBasicInfoDoc) : Except ParseError ProjectBasicInfo := do
  let project_name ← req ("project_name") d.project_name
  let tagline ← req ("tagline") d.tagline
  let website ← optUrl ("website") d.website
  let github_repo ← optUrl ("github_repo") d.github_repo
  let development_stage ← req ("development_stage") d.development_stage
  let sector ← req ("sector") d.sector
  let industry ← req ("industry") d.industry
  return { project_name, tagline, website, github_repo,
           founding_date := d.founding_date, development_stage, sector, industry }

/-- `ProjectDetails(**data.get('details', {}))`. -/
def parseDetails (d : ProjectDetailsDoc) : Except ParseError ProjectDetails := do
  let problem_statement ← req ("problem_statement") d.problem_statement
  let solution_description ← req ("solution_description") d.solution_description
  let unique_value_proposition ← req ("unique_value_proposition") d.unique_value_proposition
  let target_audience ← req ("target_audience") d.target_audience
  let business_model ← req ("business_model") d.business_model
  let revenue_streams ← req ("revenue_streams") d.revenue_streams
  let competitors ← req ("competitors") d.competitors
  let roadmap ← req ("roadmap") d.roadmap
  return { problem_statement, solution_description, unique_value_proposition,
           target_audience, market_size := d.market_size, business_model,
           revenue_streams, competitors, traction := d.traction, roadmap }

/-- `TechnicalDetails(**data.get('technical', {}))`. -/
def parseTechnical (d : TechnicalDetailsDoc) : Except ParseError TechnicalDetails := do
  let tech_stack ← req ("tech_stack") d.tech_stack
  let current_challenges ← req ("current_challenges") d.current_challenges
  let future_technological_needs ← req ("future_technological_needs") d.future_technological_needs
  return { tech_stack, intellectual_property := d.intellectual_property,
           scalability_approach := d.scalability_approach, current_challenges,
           future_technological_needs }

/-- `Funding(**data.get('funding', {}))`: every field is optional. -/
def parseFunding (d : FundingDoc) : Except ParseError Funding :=
  Except.ok
    { funding_to_date := d.funding_to_date, funding_sources := d.funding_sources,
      current_runway := d.current_runway, funding_needed := d.funding_needed,
      use_of_funds := d.use_of_funds }

/-- `IncubatorPreferences(**data.get('incubator_preferences', {}))`. -/
def parsePreferences (d : IncubatorPreferencesDoc) : Except ParseError IncubatorPreferences := do
  let resources_needed ← req ("resources_needed") d.resources_needed
  let program_length_preference ← req ("program_length_preference") d.program_length_preference
  let relocation_willingness ← req ("relocation_willingness") d.relocation_willingness
  let remote_participation ← req ("remote_participation") d.remote_participation
  return { resources_needed, program_length_preference,
           equity_willingness := d.equity_willingness, relocation_willingness,
           remote_participation,
           specific_mentors_desired := d.specific_mentors_desired }

/-- `ProjectProfile.from_yaml` after `yaml.safe_load`: sections default to the
empty mapping when absent, the team list defaults to empty. -/
def ProjectProfile.from_yaml (doc : ProfileDoc) : Except ParseError ProjectProfile := do
  let team ← parseTeamList (doc.team.getD [])
  let basic_info ← parseBasicInfo (doc.basic_info.getD emptyBasicInfoDoc)
  let details ← parseDetails (doc.details.getD emptyDetailsDoc)
  let technical ← parseTechnical (doc.technical.getD emptyTechnicalDoc)
  let funding ← parseFunding (doc.funding.getD emptyFundingDoc)
  let incubator_preferences ← parsePreferences (doc.incubator_preferences.getD emptyPreferencesDoc)
  return { team, basic_info, details, technical, funding, incubator_preferences }

/-- `member.dict()` for a validated team member: every schema key is emitted,
absent optionals as `None`. -/
def teamMemberToDict (m : TeamMember) : TeamMemberDoc :=
  { full_name := some m.full_name, role := some m.role, email := m.email,
    linkedin := m.linkedin, github := m.github, bio := some m.bio,
    skills := some m.skills, years_experience := some m.years_experience,
    education := some m.education }

/-- `self.basic_info.dict()`. -/
def basicInfoToDict (b : ProjectBasicInfo) : ProjectBasicInfoDoc :=
  { project_name := some b.project_name, tagline := some b.tagline,
    website := b.website, github_repo := b.github_repo,
    founding_date := b.founding_date,
    development_stage := some b.development_stage, sector := some b.sector,
    industry := some b.industry }

/-- `self.details.dict()`. -/
def detailsToDict (d : ProjectDetails) : ProjectDetailsDoc :=
  { problem_statement := some d.problem_statement,
    solution_description := some d.solution_description,
    unique_value_proposition := some d.unique_value_proposition,
    target_audience := some d.target_audience, market_size := d.market_size,
    business_model := some d.business_model,
    revenue_streams := some d.revenue_streams, competitors := some d.competitors,
    traction := d.traction, roadmap := some d.roadmap }

/-- `self.technical.dict()`. -/
def technicalToDict (t : TechnicalDetails) : TechnicalDetailsDoc :=
  { tech_stack := some t.tech_stack,
    intellectual_property := t.intellectual_property,
    scalability_approach := t.scalability_approach,
    current_challenges := some t.current_challenges,
    future_technological_needs := some t.future_technological_needs }

/-- `self.funding.dict()`. -/
def fundingToDict (f : Funding) : FundingDoc :=
  { funding_to_date := f.funding_to_date, funding_sources := f.funding_sources,
    current_runway := f.current_runway, funding_needed := f.funding_needed,
    use_of_funds := f.use_of_funds }

/-- `self.incubator_preferences.dict()`. -/
def preferencesToDict (p : IncubatorPreferences) : IncubatorPreferencesDoc :=
  { resources_needed := some p.resources_needed,
    program_length_preference := some p.program_length_preference,
    equity_willingness := p.equity_willingness,
    relocation_willingness := some p.relocation_willingness,
    remote_participation := some p.remote_participation,
    specific_mentors_desired := p.specific_mentors_desired }

/-- `ProjectProfile.to_dict`. -/
def ProjectProfile.to_dict (p : ProjectProfile) : ProfileDoc :=
  { team := some (p.team.map teamMemberToDict),
    basic_info := some (basicInfoToDict p.basic_info),
    details := some (detailsToDict p.details),
    technical := some (technicalToDict p.technical),
    funding := some (fundingToDict p.funding),
    incubator_preferences := some (preferencesToDict p.incubator_preferences) }

/-- A team-member document lacks one of the required member fields. -/
def teamMemberMissing (d : TeamMemberDoc) : Bool :=
  d.full_name.isNone || d.role.isNone || d.bio.isNone || d.skills.isNone ||
    d.years_experience.isNone || d.education.isNone

/-- A basic-info document lacks one of the required fields. -/
def basicInfoMissing (d : ProjectBasicInfoDoc) : Bool :=
  d.project_name.isNone || d.tagline.isNone || d.development_stage.isNone ||
    d.sector.isNone || d.industry.isNone

/-- A details document lacks one of the required fields. -/
def detailsMissing (d : ProjectDetailsDoc) : Bool :=
  d.problem_statement.isNone || d.solution_description.isNone ||
    d.unique_value_proposition.isNone || d.target_audience.isNone ||
    d.business_model.isNone || d.revenue_streams.isNone ||
    d.competitors.isNone || d.roadmap.isNone

/-- A technical document lacks one of the required fields. -/
def technicalMissing (d : TechnicalDetailsDoc) : Bool :=
  d.tech_stack.isNone || d.current_challenges.isNone ||
    d.future_technological_needs.isNone

/-- A preferences document lacks one of the required fields. -/
def preferencesMissing (d : IncubatorPreferencesDoc) : Bool :=
  d.resources_needed.isNone || d.program_length_preference.isNone ||
    d.relocation_willingness.isNone || d.remote_participation.isNone

/-- Some required field is missing somewhere in the document (after the
per-section defaulting that `from_yaml` applies to absent sections). -/
def hasMissingRequired (doc : ProfileDoc) : Bool :=
  (doc.team.getD []).any teamMemberMissing ||
    basicInfoMissing (doc.basic_info.getD emptyBasicInfoDoc) ||
    detailsMissing (doc.details.getD emptyDetailsDoc) ||
    technicalMissing (doc.technical.getD emptyTechnicalDoc) ||
    preferencesMissing (doc.incubator_preferences.getD emptyPreferencesDoc)

/-! ## Application model -/

/-- `IncubatorQuestion` dataclass. `max_chars` is `Optional[int]`. -/
structure IncubatorQuestion where
  question_id : String
  question_text : String
  max_chars : Option Int
  expected_content : Option String
  answered : Bool
  answer : String
  deriving DecidableEq

/-- `IncubatorApplication` dataclass, with the `id` attribute that
`__post_init__` computes stored explicitly. -/
structure IncubatorApplication where
  program_name : String
  application_url : String
  deadline : String
  questions : List IncubatorQuestion
  project_profile : Option ProjectProfile
  id : String
  deriving DecidableEq

/-- The identifier `__post_init__` derives: the program name with spaces
turned to underscores and lowercased, an underscore, the deadline with
hyphens removed (character-level form of the `replace`/`lower` calls). -/
def computeId (program_name deadline : String) : String :=
  ⟨(program_name.data.map (fun c => if c == ' ' then '_' else c)).map Char.toLower⟩
    ++ ("_") ++ ⟨deadline.data.filter (fun c => !(c == '-'))⟩

/-- Dataclass construction followed by `__post_init__`. -/
def mkApplication (program_name application_url deadline : String)
    (questions : List IncubatorQuestion) (project_profile : Option ProjectProfile) :
    IncubatorApplication :=
  { program_name := program_name, application_url := application_url,
    deadline := deadline, questions := questions,
    project_profile := project_profile,
    id := computeId program_name deadline }

/-- `IncubatorApplication.add_question`: append a fresh unanswered question. -/
def add_question (app : IncubatorApplication) (question_id question_text : String)
    (max_chars : Option Int) (expected_content : Option String) :
    IncubatorApplication :=
  { app with
    questions := app.questions ++
      [{ question_id := question_id, question_text := question_text,
         max_chars := max_chars, expected_content := expected_content,
         answered := false, answer := "" }] }

/-- The linear scan of `IncubatorApplication.answer_question`: the first
question with a matching id is updated and the scan stops. -/
def answerInList : List IncubatorQuestion → String → String →
    Bool × List IncubatorQuestion
  | [], _, _ => (false, [])
  | q :: rest, qid, ans =>
    if q.question_id == qid then
      (true, { q with answer := ans, answered := true } :: rest)
    else
      let r := answerInList rest qid ans
      (r.1, q :: r.2)

/-- `IncubatorApplication.answer_question`. -/
def answer_question (app : IncubatorApplication) (question_id answer : String) :
    Bool × IncubatorApplication :=
  let r := answerInList app.questions question_id answer
  (r.1, { app with questions := r.2 })

/-- The three provider families of the model-name dispatch. -/
inductive Backend where
  | gpt
  | claude
  | gemini
  deriving DecidableEq

/-- The model-name dispatch of `generate_answers`: `gpt`, `claude` and
`gemini` name tests in source order, anything else is unsupported. -/
def resolveBackend (model_name : String) : Option Backend :=
  if strStartsWith model_name ("gpt") then some Backend.gpt
  else if strStartsWith model_name ("claude") then some Backend.claude
  else if strStartsWith model_name ("gemini") then some Backend.gemini
  else none

/-- The exceptions `generate_answers` can raise before its loop. -/
inductive GenError where
  | noProfile
  | unsupportedModel
  deriving DecidableEq

/-- One iteration of the generation loop for a single question. The backend
oracle abstracts `chain.run` on the rendered prompt: `some text` is a
successful response, `none` a raised exception (which the source logs and
swallows). The `Nat` counts backend invocations. On success the response is
truncated to `max_chars` when that bound is truthy and exceeded, then
stripped of surrounding whitespace. -/
def processQuestion (backend : IncubatorQuestion → Option String)
    (q : IncubatorQuestion) : IncubatorQuestion × Nat :=
  if q.answered then (q, 0)
  else
    match backend q with
    | none => (q, 1)
    | some response =>
      let response' :=
        match q.max_chars with
        | some m =>
          if m ≠ 0 ∧ m < (response.data.length : Int) then pySliceTo response m
          else response
        | none => response
      ({ q with answer := pyStrip response', answered := true }, 1)

/-- `IncubatorApplication.generate_answers`. Raising is modelled by the
`Except` error; the paired `Nat` is the number of backend invocations
performed. On success the updated application, the list of all answered
questions, and the invocation count are returned. -/
def generate_answers (app : IncubatorApplication) (model_name : String)
    (backend : IncubatorQuestion → Option String) :
    Except GenError (IncubatorApplication × List IncubatorQuestion) × Nat :=
  if !app.project_profile.isSome then (Except.error GenError.noProfile, 0)
  else
    match resolveBackend model_name with
    | none => (Except.error GenError.unsupportedModel, 0)
    | some _fam =>
      let processed := app.questions.map (processQuestion backend)
      let qs := processed.map Prod.fst
      let calls := (processed.map Prod.snd).sum
      (Except.ok ({ app with questions := qs }, qs.filter (fun q => q.answered)),
        calls)

/-- One entry of the exported `answers` array. -/
structure ExportedAnswer where
  question_id : String
  question : String
  answer : String
  deriving DecidableEq

/-- The JSON object `export_answers` writes: exactly these four keys. -/
structure ExportedAnswers where
  program_name : String
  application_url : String
  deadline : String
  answers : List ExportedAnswer
  deriving DecidableEq

/-- `IncubatorApplication.export_answers`, minus the file write: the value
serialized to the output path. -/
def export_answers (app : IncubatorApplication) : ExportedAnswers :=
  { program_name := app.program_name, application_url := app.application_url,
    deadline := app.deadline,
    answers := (app.questions.filter (fun q => q.answered)).map
      (fun q => { question_id := q.question_id, question := q.question_text,
                  answer := q.answer }) }

/-! ## Bulk import (`load_from_json`) -/

/-- One entry of a question document inside an imported JSON file; every key
is read with a `get` default. -/
structure QuestionDoc where
  question_id : Option String
  question_text : Option String
  max_chars : Option Int
  expected_content : Option String
  deriving DecidableEq

/-- One element of the imported `questions` array: either a JSON object, or
a value of another JSON shape on which the source's `q.get` raises. -/
inductive QuestionEntry where
  | obj (d : QuestionDoc)
  | malformed
  deriving DecidableEq

/-- One entry of an imported `answers` array. -/
structure AnswerDoc where
  question_id : Option String
  answer : Option String
  deriving DecidableEq

/-- One element of the imported `answers` array: either a JSON object, or a
value of another JSON shape on which the source's `a.get` raises. -/
inductive AnswerEntry where
  | obj (a : AnswerDoc)
  | malformed
  deriving DecidableEq

/-- An application JSON document as `json.load` yields it, each key read
with a default when absent. -/
structure AppJsonDoc where
  program_name : Option String
  application_url : Option String
  deadline : Option String
  questions : Option (List QuestionEntry)
  answers : Option (List AnswerEntry)
  deriving DecidableEq

/-- Default question id `f"q{len(self.questions)+1}"`. -/
def defaultQid (n : Nat) : String :=
  "q" ++ toString n

/-- The question-loading loop of `load_from_json`: appends via
`add_question`; a malformed entry raises, ending the whole call with the
mutations made so far kept. -/
def loadQuestions (app : IncubatorApplication) :
    List QuestionEntry → Bool × IncubatorApplication
  | [] => (true, app)
  | QuestionEntry.malformed :: _ => (false, app)
  | QuestionEntry.obj d :: rest =>
    loadQuestions
      (add_question app (d.question_id.getD (defaultQid (app.questions.length + 1)))
        (d.question_text.getD ("")) d.max_chars d.expected_content)
      rest

/-- The answer-loading loop of `load_from_json`. An entry whose
`question_id` is absent calls `answer_question` with `None`, which matches
no question; a malformed entry raises. -/
def loadAnswers (app : IncubatorApplication) :
    List AnswerEntry → Bool × IncubatorApplication
  | [] => (true, app)
  | AnswerEntry.malformed :: _ => (false, app)
  | AnswerEntry.obj a :: rest =>
    match a.question_id with
    | none => loadAnswers app rest
    | some qid => loadAnswers (answer_question app qid (a.answer.getD (""))).2 rest

/-- `IncubatorApplication.load_from_json`: metadata is overwritten first,
then questions are appended, then answers applied; any raise inside the
`try` yields `False` with the mutations already made kept. The `id`
attribute is never recomputed. -/
def load_from_json (app : IncubatorApplication) (doc : AppJsonDoc) :
    Bool × IncubatorApplication :=
  let app1 : IncubatorApplication :=
    { app with
      program_name := doc.program_name.getD app.program_name,
      application_url := doc.application_url.getD app.application_url,
      deadline := doc.deadline.getD app.deadline }
  match loadQuestions app1 (doc.questions.getD []) with
  | (false, app2) => (false, app2)
  | (true, app2) =>
    match loadAnswers app2 (doc.answers.getD []) with
    | (false, app3) => (false, app3)
    | (true, app3) => (true, app3)

/-! ## Interleavings of the mutating operations -/

/-- The mutating operations a caller may interleave on an application. -/
inductive AppOp where
  | addQ (question_id question_text : String) (max_chars : Option Int)
      (expected_content : Option String)
  | answerQ (question_id answer : String)
  | genA (model_name : String) (backend : IncubatorQuestion → Option String)

/-- State transition of one operation; a raising `generate_answers` leaves
the application unchanged. -/
def applyOp (app : IncubatorApplication) (op : AppOp) : IncubatorApplication :=
  match op with
  | AppOp.addQ qid qt mc ec => add_question app qid qt mc ec
  | AppOp.answerQ qid ans => (answer_question app qid ans).2
  | AppOp.genA model backend =>
    match generate_answers app model backend with
    | (Except.ok r, _) => r.1
    | (Except.error _, _) => app

/-- Run a sequence of operations left to right. -/
def runOps (app : IncubatorApplication) (ops : List AppOp) : IncubatorApplication :=
  ops.foldl applyOp app

/-- The immutable identity of a question: everything `add_question` fixes. -/
def questionKey (q : IncubatorQuestion) :
    String × String × Option Int × Option String :=
  (q.question_id, q.question_text, q.max_chars, q.expected_content)

/-- The keys of the questions an operation sequence adds, in order. -/
def addedKeys (ops : List AppOp) :
    List (String × String × Option Int × Option String) :=
  ops.filterMap (fun op =>
    match op with
    | AppOp.addQ qid qt mc ec => some (qid, qt, mc, ec)
    | _ => none)

/-! ## CLI credential resolution (`fill`) -/

/-- The environment variables the `fill` command consults. -/
structure Env where
  openai : Option String
  anthropic : Option String
  google : Option String
  deriving DecidableEq

/-- Outcome of the credential-resolution prologue of `fill`: either the
command continues with this (possibly absent) key, or it logs and returns
before loading anything. -/
inductive FillKeyOutcome where
  | proceed (api_key : Option String)
  | hardStop
  deriving DecidableEq

/-- The `gemini` block of the prologue, entered with the current `api_key`. -/
def geminiStep (k : Option String) (model : String) (env : Env) : FillKeyOutcome :=
  if strStartsWith model ("gemini") && !(truthy k) then
    if !(truthy env.google) then FillKeyOutcome.hardStop
    else FillKeyOutcome.proceed env.google
  else FillKeyOutcome.proceed k

/-- The `claude` block of the prologue, entered with the current `api_key`;
control always falls through to the `gemini` block. -/
def claudeStep (k : Option String) (model : String) (env : Env) : FillKeyOutcome :=
  if strStartsWith model ("claude") && !(truthy k) then
    if !(truthy env.anthropic) then FillKeyOutcome.hardStop
    else geminiStep env.anthropic model env
  else geminiStep k model env

/-- The credential-resolution prologue of the `fill` command: a truthy
`--api-key` flag wins; otherwise `OPENAI_API_KEY` is read first for every
model, then the family-specific blocks run in source order. -/
def resolveApiKey (flag : Option String) (model : String) (env : Env) :
    FillKeyOutcome :=
  if truthy flag then FillKeyOutcome.proceed flag
  else
    if !(truthy env.openai) && strStartsWith model ("gpt") then
      FillKeyOutcome.hardStop
    else claudeStep env.openai model env

/-! ## Concrete sample values used in concrete evaluations -/

/-- A small validated profile, used to put applications in the
profile-loaded state for concrete runs. -/
def sampleProfile : ProjectProfile :=
  { team := [],
    basic_info :=
      { project_name := "Acme", tagline := "One-liner", website := none,
        github_repo := none, founding_date := none, development_stage := "MVP",
        sector := "AI", industry := [] },
    details :=
      { problem_statement := "p", solution_description := "s",
        unique_value_proposition := "v", target_audience := "a",
        market_size := none, business_model := "b", revenue_streams := [],
        competitors := [], traction := none, roadmap := [] },
    technical :=
      { tech_stack := [], intellectual_property := none,
        scalability_approach := none, current_challenges := [],
        future_technological_needs := [] },
    funding :=
      { funding_to_date := none, funding_sources := none, current_runway := none,
        funding_needed := none, use_of_funds := none },
    incubator_preferences :=
      { resources_needed := [], program_length_preference := "3 months",
        equity_willingness := none, relocation_willingness := false,
        remote_participation := true, specific_mentors_desired := none } }

/-- An unanswered question with a character limit of 3. -/
def cexQ2 : IncubatorQuestion :=
  { question_id := "q1", question_text := "What?", max_chars := some 3,
    expected_content := none, answered := false, answer := "" }

/-- A backend whose response for any question is `"ab cd"` (5 characters). -/
def cexBackend2 : IncubatorQuestion → Option String :=
  fun _ => some ("ab cd")

/-- A one-question application with a loaded profile. -/
def cexApp2 : IncubatorApplication :=
  mkApplication ("Prog") ("url") ("2024-01-01") [cexQ2] (some sampleProfile)

/-- The state of `cexQ2` after generation against `cexBackend2`. -/
def cexQ2' : IncubatorQuestion :=
  { cexQ2 with answered := true, answer := "ab" }

/-- The state of `cexApp2` after generation against `cexBackend2`. -/
def cexApp2' : IncubatorApplication :=
  { cexApp2 with questions := [cexQ2'] }

/-- Two unanswered questions without character limits. -/
def c1Q1 : IncubatorQuestion :=
  { question_id := "q1", question_text := "First?", max_chars := none,
    expected_content := none, answered := false, answer := "" }

/-- Second sample question, also unanswered. -/
def c1Q2 : IncubatorQuestion :=
  { question_id := "q2", question_text := "Second?", max_chars := none,
    expected_content := none, answered := false, answer := "" }

/-- A backend that fails on question `q1` and succeeds elsewhere. -/
def c1Backend : IncubatorQuestion → Option String :=
  fun q => if q.question_id == "q1" then none else some ("fine")

/-- A two-question application with a loaded profile. -/
def c1App : IncubatorApplication :=
  mkApplication ("Prog") ("url") ("2024-01-01") [c1Q1, c1Q2] (some sampleProfile)

/-- An already-answered question. -/
def c7Q : IncubatorQuestion :=
  { question_id := "q1", question_text := "Done?", max_chars := none,
    expected_content := none, answered := true, answer := "yes" }

/-- A fully-answered application with a loaded profile. -/
def c7App : IncubatorApplication :=
  mkApplication ("Prog") ("url") ("2024-01-01") [c7Q] (some sampleProfile)

/-- The base application for the identity-staleness run. -/
def c9App0 : IncubatorApplication :=
  mkApplication ("Y Combinator") ("u") ("2024-01-01") [] none

/-- An imported document that renames the program and moves the deadline. -/
def c9Doc : AppJsonDoc :=
  { program_name := some ("Techstars"), application_url := none,
    deadline := some ("2025-02-03"), questions := none, answers := none }

/-- The base application for the non-atomic-load runs. -/
def c10App : IncubatorApplication :=
  mkApplication ("Orig") ("u") ("2024-01-01") [] none

/-- A document whose second questions entry is not a JSON object: the load
fails there, after the metadata and the first question were stored. -/
def c10BadDoc : AppJsonDoc :=
  { program_name := some ("Changed"), application_url := none, deadline := none,
    questions := some
      [QuestionEntry.obj
        { question_id := some ("q1"), question_text := some ("First?"),
          max_chars := none, expected_content := none },
       QuestionEntry.malformed],
    answers := none }

/-- A well-formed one-question document; loading it twice appends twice. -/
def c10GoodDoc : AppJsonDoc :=
  { program_name := none, application_url := none, deadline := none,
    questions := some
      [QuestionEntry.obj
        { question_id := some ("q1"), question_text := some ("First?"),
          max_chars := none, expected_content := none }],
    answers := none }

/-- An environment with both the OpenAI and the Anthropic variables set. -/
def c8Env : Env :=
  { openai := some ("sk-openai"), anthropic := some ("sk-anthropic"),
    google := none }

/-- A profile document whose required string fields are present but empty. -/
def c3EmptyDoc : ProfileDoc :=
  { team := some [],
    basic_info := some
      { project_name := some (""), tagline := some (""), website := none,
        github_repo := none, founding_date := none,
        development_stage := some (""), sector := some (""),
        industry := some [] },
    details := some
      { problem_statement := some (""), solution_description := some (""),
        unique_value_proposition := some (""), target_audience := some (""),
        market_size := none, business_model := some (""),
        revenue_streams := some [], competitors := some [], traction := none,
        roadmap := some [] },
    technical := some
      { tech_stack := some [], intellectual_property := none,
        scalability_approach := none, current_challenges := some [],
        future_technological_needs := some [] },
    funding := some emptyFundingDoc,
    incubator_preferences := some
      { resources_needed := some [], program_length_preference := some (""),
        equity_willingness := none, relocation_willingness := some false,
        remote_participation := some true, specific_mentors_desired := none } }

/-- The all-absent profile document: every required field is missing. -/
def c3MissingDoc : ProfileDoc :=
  { team := none, basic_info := none, details := none, technical := none,
    funding := none, incubator_preferences := none }

/-- A profile document with every section present and every optional field
populated (with well-formed URLs and email). -/
def c4Doc : ProfileDoc :=
  { team := some
      [{ full_name := some ("Ada"), role := some ("CEO"),
         email := some ("ada@example.com"),
         linkedin := some ("https://li.example.com/ada"),
         github := some ("https://gh.example.com/ada"),
         bio := some ("bio"), skills := some ["ml"],
         years_experience := some 7,
         education := some [[("degree", "BSc")]] }],
    basic_info := some
      { project_name := some ("Acme"), tagline := some ("One-liner"),
        website := some ("https://acme.example.com"),
        github_repo := some ("https://gh.example.com/acme"),
        founding_date := some ("2023-01-01"),
        development_stage := some ("MVP"), sector := some ("AI"),
        industry := some ["SaaS"] },
    details := some
      { problem_statement := some ("p"), solution_description := some ("s"),
        unique_value_proposition := some ("v"), target_audience := some ("a"),
        market_size := some ("large"), business_model := some ("b"),
        revenue_streams := some ["subs"],
        competitors := some [[("name", "X"), ("differentiator", "Y")]],
        traction := some ("1k users"),
        roadmap := some [("Q1 2024", "launch")] },
    technical := some
      { tech_stack := some ["python"], intellectual_property := some ("ip"),
        scalability_approach := some ("scale"),
        current_challenges := some ["latency"],
        future_technological_needs := some ["gpus"] },
    funding := some
      { funding_to_date := some ("100k"), funding_sources := some ["angel"],
        current_runway := some ("12 months"), funding_needed := some ("1M"),
        use_of_funds := some [("Development", "40%")] },
    incubator_preferences := some
      { resources_needed := some ["Mentorship"],
        program_length_preference := some ("3 months"),
        equity_willingness := some ("Up to 5%"),
        relocation_willingness := some true, remote_participation := some false,
        specific_mentors_desired := some ["Grace"] } }

/-! ## Helper lemmas -/

theorem length_dropWhile_le' {α : Type} (p : α → Bool) (l : List α) :
    (l.dropWhile p).length ≤ l.length := by
  induction l with
  | nil => simp
  | cons a t ih =>
    by_cases h : p a = true
    · simp [List.dropWhile, h]
      omega
    · simp [List.dropWhile, h]

theorem pyStrip_length_le (s : String) :
    (pyStrip s).data.length ≤ s.data.length := by
  unfold pyStrip
  simp only [String.data]
  calc (((s.data.dropWhile pyIsSpace).reverse.dropWhile pyIsSpace).reverse).length
      = ((s.data.dropWhile pyIsSpace).reverse.dropWhile pyIsSpace).length := by
        simp
    _ ≤ (s.data.dropWhile pyIsSpace).reverse.length := length_dropWhile_le' _ _
    _ = (s.data.dropWhile pyIsSpace).length := by simp
    _ ≤ s.data.length := length_dropWhile_le' _ _

theorem pySliceTo_length_le (s : String) (m : Int) (hm : 0 ≤ m) :
    ((pySliceTo s m).data.length : Int) ≤ m := by
  unfold pySliceTo
  rw [if_pos hm]
  simp only [String.data, List.length_take]
  have h1 : min m.toNat s.data.length ≤ m.toNat := Nat.min_le_left _ _
  omega

theorem processQuestion_of_answered (backend : IncubatorQuestion → Option String)
    (q : IncubatorQuestion) (h : q.answered = true) :
    processQuestion backend q = (q, 0) := by
  simp [processQuestion, h]

theorem processQuestion_of_fail (backend : IncubatorQuestion → Option String)
    (q : IncubatorQuestion) (h : q.answered = false) (hb : backend q = none) :
    processQuestion backend q = (q, 1) := by
  simp [processQuestion, h, hb]

theorem processQuestion_of_ok (backend : IncubatorQuestion → Option String)
    (q : IncubatorQuestion) (r : String) (h : q.answered = false)
    (hb : backend q = some r) :
    (processQuestion backend q).1.answered = true ∧
      (processQuestion backend q).2 = 1 := by
  cases hmc : q.max_chars with
  | none => simp [processQuestion, h, hb, hmc]
  | some m => by_cases hc : m ≠ 0 ∧ m < (r.data.length : Int) <;>
      simp [processQuestion, h, hb, hmc, hc]

theorem processQuestion_trunc (backend : IncubatorQuestion → Option String)
    (q : IncubatorQuestion) (r : String) (m : Int) (h : q.answered = false)
    (hb : backend q = some r) (hmc : q.max_chars = some m) (hm : 0 < m)
    (hlen : m < (r.data.length : Int)) :
    (processQuestion backend q).1.answer = pyStrip (pySliceTo r m) := by
  have hc : m ≠ 0 ∧ m < (r.data.length : Int) := ⟨by omega, hlen⟩
  simp [processQuestion, h, hb, hmc, hc]
  rw [if_pos (show m < (r.length : Int) from hlen)]

theorem questionKey_processQuestion (backend : IncubatorQuestion → Option String)
    (q : IncubatorQuestion) :
    questionKey (processQuestion backend q).1 = questionKey q := by
  unfold processQuestion
  split
  · rfl
  · cases backend q with
    | none => rfl
    | some r => rfl

theorem processed_count (backend : IncubatorQuestion → Option String)
    (l : List IncubatorQuestion) :
    ((l.map (fun q => (processQuestion backend q).1)).filter
        (fun q => q.answered)).length
      + (l.filter (fun q => !q.answered && (backend q).isNone)).length
    = l.length := by
  induction l with
  | nil => rfl
  | cons q rest ih =>
    by_cases h : q.answered = true
    · rw [List.map_cons, List.filter_cons, List.filter_cons,
        processQuestion_of_answered backend q h]
      simp [h]
      omega
    · have h' : q.answered = false := by
        cases hq : q.answered
        · rfl
        · exact absurd hq h
      cases hb : backend q with
      | none =>
        rw [List.map_cons, List.filter_cons, List.filter_cons,
          processQuestion_of_fail backend q h' hb]
        simp [h', hb]
        omega
      | some r =>
        rw [List.map_cons, List.filter_cons, List.filter_cons]
        have hq1 := (processQuestion_of_ok backend q r h' hb).1
        simp [hq1, h', hb]
        omega

theorem forall₂_map_self {α : Type} {R : α → α → Prop} {f : α → α} (l : List α)
    (h : ∀ a ∈ l, R a (f a)) : List.Forall₂ R l (l.map f) := by
  rw [List.forall₂_map_right_iff]
  exact List.forall₂_same.mpr h

theorem generate_answers_ok (app : IncubatorApplication) (model_name : String)
    (backend : IncubatorQuestion → Option String)
    (hp : app.project_profile.isSome = true) (b : Backend)
    (hb : resolveBackend model_name = some b) :
    generate_answers app model_name backend =
      (Except.ok
        ({ app with
            questions := app.questions.map (fun q => (processQuestion backend q).1) },
          (app.questions.map (fun q => (processQuestion backend q).1)).filter
            (fun q => q.answered)),
        (app.questions.map (fun q => (processQuestion backend q).2)).sum) := by
  simp [generate_answers, hp, hb, List.map_map, Function.comp]
  exact ⟨rfl, rfl⟩

/-! ## C1: partial-failure isolation in generate_answers -/

/-- C1: with a loaded profile and a supported model name, `generate_answers`
returns without raising; of the previously-unanswered questions exactly
those whose backend call fails stay `answered = false` with their answer
fields unchanged (so the count of answered questions afterwards plus the
count of failed ones is the total question count), previously-answered
questions are untouched, each unanswered question with a successful call
becomes answered, and the returned value is the list of all questions with
`answered = true` after the run, in question order. -/
theorem generate_answers_partial_failure
    (app : IncubatorApplication) (model_name : String)
    (backend : IncubatorQuestion → Option String)
    (hp : app.project_profile.isSome = true) (b : Backend)
    (hb : resolveBackend model_name = some b) :
    ∃ app' ret calls,
      generate_answers app model_name backend = (Except.ok (app', ret), calls) ∧
      ret = app'.questions.filter (fun q => q.answered) ∧
      (app'.questions.filter (fun q => q.answered)).length
          + (app.questions.filter (fun q => !q.answered && (backend q).isNone)).length
        = app.questions.length ∧
      List.Forall₂
        (fun q q' =>
          (q.answered = true → q' = q) ∧
          (q.answered = false → backend q = none → q' = q) ∧
          (q.answered = false → (backend q).isSome = true → q'.answered = true))
        app.questions app'.questions := by
  refine ⟨{ app with
      questions := app.questions.map (fun q => (processQuestion backend q).1) },
    (app.questions.map (fun q => (processQuestion backend q).1)).filter
      (fun q => q.answered),
    (app.questions.map (fun q => (processQuestion backend q).2)).sum,
    generate_answers_ok app model_name backend hp b hb, rfl, ?_, ?_⟩
  · exact processed_count backend app.questions
  · apply forall₂_map_self
    intro q _
    refine ⟨?_, ?_, ?_⟩
    · intro h
      rw [processQuestion_of_answered backend q h]
    · intro h hbq
      rw [processQuestion_of_fail backend q h hbq]
    · intro h hbq
      obtain ⟨r, hr⟩ := Option.isSome_iff_exists.mp hbq
      exact (processQuestion_of_ok backend q r h hr).1

/-- Witness for C1 at a concrete two-question application whose backend
fails on the first question only. -/
theorem generate_answers_partial_failure_witness :
    c1App.project_profile.isSome = true ∧
    resolveBackend ("gpt-4") = some Backend.gpt ∧
    (∃ app' ret calls,
      generate_answers c1App ("gpt-4") c1Backend = (Except.ok (app', ret), calls) ∧
      ret = app'.questions.filter (fun q => q.answered) ∧
      (app'.questions.filter (fun q => q.answered)).length
          + (c1App.questions.filter
              (fun q => !q.answered && (c1Backend q).isNone)).length
        = c1App.questions.length ∧
      List.Forall₂
        (fun q q' =>
          (q.answered = true → q' = q) ∧
          (q.answered = false → c1Backend q = none → q' = q) ∧
          (q.answered = false → (c1Backend q).isSome = true → q'.answered = true))
        c1App.questions app'.questions) :=
  ⟨rfl, rfl,
    generate_answers_partial_failure c1App ("gpt-4") c1Backend rfl Backend.gpt rfl⟩

/-! ## C2: truncation to the character limit -/

/-- C2 counterexample: with `max_chars = 3` and the 5-character backend
response `"ab cd"`, the stored answer is `"ab"`, whose length is 2, not 3:
the strip happens after the cut, so the claimed exact length fails. -/
theorem truncation_not_exact_cex :
    generate_answers cexApp2 ("gpt-4") cexBackend2
        = (Except.ok (cexApp2', [cexQ2']), 1) ∧
    cexQ2.max_chars = some 3 ∧
    cexBackend2 cexQ2 = some ("ab cd") ∧
    ("ab cd").data.length = 5 ∧
    cexQ2'.answer.data.length = 2 := by
  refine ⟨?_, rfl, rfl, rfl, rfl⟩
  rfl

/-- C2 (amended): for a question whose `max_chars` is a positive integer
and whose backend response is strictly longer than `max_chars`, the stored
answer after `generate_answers` is the first `max_chars` characters of the
response with surrounding whitespace then stripped; its length is therefore
at most `max_chars`, with equality exactly when that prefix carries no
leading or trailing whitespace. -/
theorem generate_answers_truncation
    (app : IncubatorApplication) (model_name : String)
    (backend : IncubatorQuestion → Option String)
    (hp : app.project_profile.isSome = true) (b : Backend)
    (hb : resolveBackend model_name = some b) :
    ∃ app' ret calls,
      generate_answers app model_name backend = (Except.ok (app', ret), calls) ∧
      List.Forall₂
        (fun q q' => ∀ m r, q.answered = false → q.max_chars = some m →
          0 < m → backend q = some r → m < (r.data.length : Int) →
          q'.answer = pyStrip (pySliceTo r m) ∧
            (q'.answer.data.length : Int) ≤ m)
        app.questions app'.questions := by
  refine ⟨{ app with
      questions := app.questions.map (fun q => (processQuestion backend q).1) },
    (app.questions.map (fun q => (processQuestion backend q).1)).filter
      (fun q => q.answered),
    (app.questions.map (fun q => (processQuestion backend q).2)).sum,
    generate_answers_ok app model_name backend hp b hb, ?_⟩
  apply forall₂_map_self
  intro q _ m r h hmc hm hbq hlen
  have ha := processQuestion_trunc backend q r m h hbq hmc hm hlen
  refine ⟨ha, ?_⟩
  rw [ha]
  have h1 : (pyStrip (pySliceTo r m)).data.length ≤ (pySliceTo r m).data.length :=
    pyStrip_length_le _
  have h2 : ((pySliceTo r m).data.length : Int) ≤ m :=
    pySliceTo_length_le r m (by omega)
  omega

/-- Witness for the amended C2 at the concrete `max_chars = 3` question and
the backend response `"ab cd"`. -/
theorem generate_answers_truncation_witness :
    cexApp2.project_profile.isSome = true ∧
    resolveBackend ("gpt-4") = some Backend.gpt ∧
    (∃ app' ret calls,
      generate_answers cexApp2 ("gpt-4") cexBackend2
          = (Except.ok (app', ret), calls) ∧
      List.Forall₂
        (fun q q' => ∀ m r, q.answered = false → q.max_chars = some m →
          0 < m → cexBackend2 q = some r → m < (r.data.length : Int) →
          q'.answer = pyStrip (pySliceTo r m) ∧
            (q'.answer.data.length : Int) ≤ m)
        cexApp2.questions app'.questions) :=
  ⟨rfl, rfl,
    generate_answers_truncation cexApp2 ("gpt-4") cexBackend2 rfl Backend.gpt rfl⟩

/-! ## C5: backend dispatch by model-name prefix -/

theorem claude_not_gpt (s : String)
    (h : strStartsWith s ("claude") = true) : strStartsWith s ("gpt") = false := by
  have hc : ("claude").data = ['c', 'l', 'a', 'u', 'd', 'e'] := rfl
  have hg : ("gpt").data = ['g', 'p', 't'] := rfl
  unfold strStartsWith at h ⊢
  rw [hc] at h
  rw [hg]
  cases hd : s.data with
  | nil => rw [hd] at h; simp [List.isPrefixOf] at h
  | cons c t =>
    rw [hd] at h
    simp [List.isPrefixOf] at h
    obtain ⟨h1, -⟩ := h
    subst h1
    simp [List.isPrefixOf]

theorem gemini_not_gpt (s : String)
    (h : strStartsWith s ("gemini") = true) : strStartsWith s ("gpt") = false := by
  have hc : ("gemini").data = ['g', 'e', 'm', 'i', 'n', 'i'] := rfl
  have hg : ("gpt").data = ['g', 'p', 't'] := rfl
  unfold strStartsWith at h ⊢
  rw [hc] at h
  rw [hg]
  cases hd : s.data with
  | nil => rw [hd] at h; simp [List.isPrefixOf] at h
  | cons c t =>
    rw [hd] at h
    simp [List.isPrefixOf] at h
    cases ht : t with
    | nil => rw [ht] at h; simp at h
    | cons c2 t2 =>
      rw [ht] at h
      simp at h
      obtain ⟨h1, h2, -⟩ := h
      subst h1
      subst h2
      simp [List.isPrefixOf]

theorem gemini_not_claude (s : String)
    (h : strStartsWith s ("gemini") = true) :
    strStartsWith s ("claude") = false := by
  have hc : ("gemini").data = ['g', 'e', 'm', 'i', 'n', 'i'] := rfl
  have hg : ("claude").data = ['c', 'l', 'a', 'u', 'd', 'e'] := rfl
  unfold strStartsWith at h ⊢
  rw [hc] at h
  rw [hg]
  cases hd : s.data with
  | nil => rw [hd] at h; simp [List.isPrefixOf] at h
  | cons c t =>
    rw [hd] at h
    simp [List.isPrefixOf] at h
    obtain ⟨h1, -⟩ := h
    subst h1
    simp [List.isPrefixOf]

/-- C5: with a loaded profile, a model name matching none of the three
prefixes makes `generate_answers` fail with the unsupported-model error
and zero backend invocations (so no question is touched and no call is
attempted), while each of the three prefixes resolves to its provider
family, a resolution `generate_answers` performs once, before the loop. -/
theorem generate_answers_dispatch
    (app : IncubatorApplication) (model_name : String)
    (backend : IncubatorQuestion → Option String)
    (hp : app.project_profile.isSome = true) :
    (strStartsWith model_name ("gpt") = false →
      strStartsWith model_name ("claude") = false →
      strStartsWith model_name ("gemini") = false →
      generate_answers app model_name backend
        = (Except.error GenError.unsupportedModel, 0)) ∧
    (strStartsWith model_name ("gpt") = true →
      resolveBackend model_name = some Backend.gpt) ∧
    (strStartsWith model_name ("claude") = true →
      resolveBackend model_name = some Backend.claude) ∧
    (strStartsWith model_name ("gemini") = true →
      resolveBackend model_name = some Backend.gemini) := by
  refine ⟨?_, ?_, ?_, ?_⟩
  · intro h1 h2 h3
    simp [generate_answers, hp, resolveBackend, h1, h2, h3]
  · intro h
    simp [resolveBackend, h]
  · intro h
    simp [resolveBackend, h, claude_not_gpt model_name h]
  · intro h
    simp [resolveBackend, h, gemini_not_gpt model_name h,
      gemini_not_claude model_name h]

/-- Witness for C5: the model name `"llama-2"` matches no family and fails;
`"claude-3-opus"` resolves to the Claude family. -/
theorem generate_answers_dispatch_witness :
    c7App.project_profile.isSome = true ∧
    generate_answers c7App ("llama-2") c1Backend
        = (Except.error GenError.unsupportedModel, 0) ∧
    resolveBackend ("claude-3-opus") = some Backend.claude :=
  ⟨rfl,
    (generate_answers_dispatch c7App ("llama-2") c1Backend rfl).1 rfl rfl rfl,
    (generate_answers_dispatch c7App ("claude-3-opus") c1Backend rfl).2.2.1 rfl⟩

/-! ## C7: re-answering a fully answered application is a no-op -/

/-- C7: on an application whose questions are all answered, with a loaded
profile and a supported model name, `generate_answers` performs zero
backend invocations, leaves the application (in particular every answer
and answered flag) unchanged, and returns the full question list — so a
second invocation in succession is a no-op. -/
theorem generate_answers_idempotent
    (app : IncubatorApplication) (model_name : String)
    (backend : IncubatorQuestion → Option String)
    (hp : app.project_profile.isSome = true) (b : Backend)
    (hb : resolveBackend model_name = some b)
    (hall : ∀ q ∈ app.questions, q.answered = true) :
    generate_answers app model_name backend
      = (Except.ok (app, app.questions), 0) := by
  rw [generate_answers_ok app model_name backend hp b hb]
  have hmap : app.questions.map (fun q => (processQuestion backend q).1)
      = app.questions := by
    have : ∀ q ∈ app.questions, (processQuestion backend q).1 = q := by
      intro q hq
      rw [processQuestion_of_answered backend q (hall q hq)]
    calc app.questions.map (fun q => (processQuestion backend q).1)
        = app.questions.map id := List.map_congr_left this
      _ = app.questions := List.map_id _
  have hsum : (app.questions.map (fun q => (processQuestion backend q).2)).sum
      = 0 := by
    apply List.sum_eq_zero
    intro x hx
    obtain ⟨q, hq, hxe⟩ := List.mem_map.mp hx
    rw [← hxe, processQuestion_of_answered backend q (hall q hq)]
  rw [hmap, hsum, List.filter_eq_self.mpr hall]

/-- Witness for C7 at a concrete fully-answered one-question application. -/
theorem generate_answers_idempotent_witness :
    c7App.project_profile.isSome = true ∧
    resolveBackend ("gpt-4") = some Backend.gpt ∧
    generate_answers c7App ("gpt-4") c1Backend
      = (Except.ok (c7App, c7App.questions), 0) :=
  ⟨rfl, rfl,
    generate_answers_idempotent c7App ("gpt-4") c1Backend rfl Backend.gpt rfl
      (by intro q hq; simp [c7App, mkApplication, c7Q] at hq; subst hq; rfl)⟩

/-! ## C6: export shape and order preservation -/

theorem answerInList_keys (qid ans : String) :
    ∀ l : List IncubatorQuestion,
      (answerInList l qid ans).2.map questionKey = l.map questionKey := by
  intro l
  induction l with
  | nil => rfl
  | cons q rest ih =>
    by_cases h : q.question_id == qid
    · simp [answerInList, h, questionKey]
    · simp [answerInList, h, ih]

theorem generate_answers_keys (app : IncubatorApplication) (model_name : String)
    (backend : IncubatorQuestion → Option String)
    (r : IncubatorApplication × List IncubatorQuestion) (calls : Nat)
    (h : generate_answers app model_name backend = (Except.ok r, calls)) :
    r.1.questions.map questionKey = app.questions.map questionKey := by
  unfold generate_answers at h
  by_cases hp : app.project_profile.isSome
  · rw [if_neg (by simp [hp])] at h
    cases hres : resolveBackend model_name with
    | none => rw [hres] at h; exact absurd (congrArg Prod.fst h) (by simp)
    | some b =>
      rw [hres] at h
      have hr1 : r.1 = { app with
          questions := app.questions.map (Prod.fst ∘ processQuestion backend) } := by
        have h2 := congrArg Prod.fst h
        simp at h2
        exact congrArg Prod.fst h2.symm
      rw [hr1]
      simp only [List.map_map]
      apply List.map_congr_left
      intro q _
      exact questionKey_processQuestion backend q
  · rw [if_pos (by simp [hp])] at h
    exact absurd (congrArg Prod.fst h) (by simp)

theorem applyOp_keys (app : IncubatorApplication) (op : AppOp) :
    (applyOp app op).questions.map questionKey
      = app.questions.map questionKey ++ addedKeys [op] := by
  cases op with
  | addQ qid qt mc ec =>
    simp [applyOp, add_question, addedKeys, questionKey]
  | answerQ qid ans =>
    simp [applyOp, answer_question, addedKeys, answerInList_keys]
  | genA model backend =>
    simp only [applyOp, addedKeys, List.filterMap]
    cases hres : generate_answers app model backend with
    | mk e calls =>
      cases e with
      | ok r => simp [generate_answers_keys app model backend r calls hres]
      | error err => simp

theorem runOps_keys (ops : List AppOp) :
    ∀ app0 : IncubatorApplication,
      (runOps app0 ops).questions.map questionKey
        = app0.questions.map questionKey ++ addedKeys ops := by
  induction ops with
  | nil => intro app0; simp [runOps, addedKeys]
  | cons op rest ih =>
    intro app0
    have hstep := applyOp_keys app0 op
    have h1 : runOps app0 (op :: rest) = runOps (applyOp app0 op) rest := rfl
    have h2 : addedKeys (op :: rest) = addedKeys [op] ++ addedKeys rest := by
      cases op <;> simp [addedKeys]
    rw [h1, ih (applyOp app0 op), hstep, h2, List.append_assoc]

/-- C6: after any interleaving of add, manual-answer and generate
operations, `export_answers` produces a value with exactly the four keys
`program_name`, `application_url`, `deadline` and `answers`, where `answers`
holds one entry per question with `answered = true`, in the order the
questions were added (the immutable key sequence of the question list is
the initial one followed by the added ones, in order), and holds no entry
for unanswered questions. -/
theorem export_answers_spec (app0 : IncubatorApplication) (ops : List AppOp) :
    export_answers (runOps app0 ops) =
      { program_name := (runOps app0 ops).program_name,
        application_url := (runOps app0 ops).application_url,
        deadline := (runOps app0 ops).deadline,
        answers := ((runOps app0 ops).questions.filter
            (fun q => q.answered)).map
          (fun q => { question_id := q.question_id, question := q.question_text,
                      answer := q.answer }) } ∧
    (runOps app0 ops).questions.map questionKey
      = app0.questions.map questionKey ++ addedKeys ops :=
  ⟨rfl, runOps_keys ops app0⟩

/-! ## C8: credential resolution in the fill command -/

/-- C8 counterexample: for the Claude-family model `claude-3-opus` with
both `OPENAI_API_KEY` and `ANTHROPIC_API_KEY` set, the resolved key is the
OpenAI one, not the Anthropic one the claim promises. -/
theorem resolveApiKey_openai_first_cex :
    resolveApiKey none ("claude-3-opus") c8Env
        = FillKeyOutcome.proceed (some ("sk-openai")) ∧
    c8Env.anthropic = some ("sk-anthropic") ∧
    FillKeyOutcome.proceed (some ("sk-openai"))
      ≠ FillKeyOutcome.proceed (some ("sk-anthropic")) := by
  refine ⟨rfl, rfl, by decide⟩

/-- C8 (amended): when no truthy flag is given, `OPENAI_API_KEY` is
consulted first for every model and wins whenever it is set; only when it
is unset or empty do claude models fall back to `ANTHROPIC_API_KEY` and
gemini models to `GOOGLE_API_KEY`, and absence of the fallback (or, for
gpt models, of `OPENAI_API_KEY`) is a hard stop before any generation. -/
theorem resolveApiKey_spec (flag : Option String) (model : String) (env : Env) :
    (truthy flag = true →
      resolveApiKey flag model env = FillKeyOutcome.proceed flag) ∧
    (truthy flag = false → truthy env.openai = true →
      resolveApiKey flag model env = FillKeyOutcome.proceed env.openai) ∧
    (truthy flag = false → truthy env.openai = false →
      strStartsWith model ("gpt") = true →
      resolveApiKey flag model env = FillKeyOutcome.hardStop) ∧
    (truthy flag = false → truthy env.openai = false →
      strStartsWith model ("claude") = true →
      (truthy env.anthropic = true →
        resolveApiKey flag model env = FillKeyOutcome.proceed env.anthropic) ∧
      (truthy env.anthropic = false →
        resolveApiKey flag model env = FillKeyOutcome.hardStop)) ∧
    (truthy flag = false → truthy env.openai = false →
      strStartsWith model ("gemini") = true →
      (truthy env.google = true →
        resolveApiKey flag model env = FillKeyOutcome.proceed env.google) ∧
      (truthy env.google = false →
        resolveApiKey flag model env = FillKeyOutcome.hardStop)) := by
  refine ⟨?_, ?_, ?_, ?_, ?_⟩
  · intro hf
    simp [resolveApiKey, hf]
  · intro hf ho
    simp [resolveApiKey, claudeStep, geminiStep, hf, ho]
  · intro hf ho hg
    simp [resolveApiKey, hf, ho, hg]
  · intro hf ho hc
    have hg := claude_not_gpt model hc
    constructor
    · intro ha
      simp [resolveApiKey, claudeStep, geminiStep, hf, ho, hc, hg, ha]
    · intro ha
      simp [resolveApiKey, claudeStep, hf, ho, hc, hg, ha]
  · intro hf ho hgem
    have hg := gemini_not_gpt model hgem
    have hc := gemini_not_claude model hgem
    constructor
    · intro ha
      simp [resolveApiKey, claudeStep, geminiStep, hf, ho, hgem, hg, hc, ha]
    · intro ha
      simp [resolveApiKey, claudeStep, geminiStep, hf, ho, hgem, hg, hc, ha]

/-- Witness for the amended C8: an empty environment is a hard stop for a
gpt-family model. -/
theorem resolveApiKey_spec_witness :
    truthy (none : Option String) = false ∧
    strStartsWith ("gpt-4") ("gpt") = true ∧
    resolveApiKey none ("gpt-4")
        { openai := none, anthropic := none, google := none }
      = FillKeyOutcome.hardStop :=
  ⟨rfl, rfl,
    (resolveApiKey_spec none ("gpt-4")
        { openai := none, anthropic := none, google := none }).2.2.1 rfl rfl rfl⟩

/-! ## C9: the application identifier -/

theorem loadQuestions_id (entries : List QuestionEntry) :
    ∀ app : IncubatorApplication, (loadQuestions app entries).2.id = app.id := by
  induction entries with
  | nil => intro app; rfl
  | cons e rest ih =>
    intro app
    cases e with
    | malformed => rfl
    | obj d => exact ih _

theorem loadAnswers_id (entries : List AnswerEntry) :
    ∀ app : IncubatorApplication, (loadAnswers app entries).2.id = app.id := by
  induction entries with
  | nil => intro app; rfl
  | cons e rest ih =>
    intro app
    cases e with
    | malformed => rfl
    | obj a =>
      cases hq : a.question_id with
      | none =>
        simp only [loadAnswers, hq]
        exact ih _
      | some qid =>
        simp only [loadAnswers, hq]
        exact ih _

theorem load_from_json_id (app : IncubatorApplication) (doc : AppJsonDoc) :
    (load_from_json app doc).2.id = app.id := by
  simp only [load_from_json]
  split
  next app2 heq =>
    have h := loadQuestions_id (doc.questions.getD [])
      { app with
        program_name := doc.program_name.getD app.program_name,
        application_url := doc.application_url.getD app.application_url,
        deadline := doc.deadline.getD app.deadline }
    rw [heq] at h
    exact h
  next app2 heq =>
    split
    next app3 heq2 =>
      have h2 := loadAnswers_id (doc.answers.getD []) app2
      rw [heq2] at h2
      have h := loadQuestions_id (doc.questions.getD [])
        { app with
          program_name := doc.program_name.getD app.program_name,
          application_url := doc.application_url.getD app.application_url,
          deadline := doc.deadline.getD app.deadline }
      rw [heq] at h
      exact h2.trans h
    next app3 heq2 =>
      have h2 := loadAnswers_id (doc.answers.getD []) app2
      rw [heq2] at h2
      have h := loadQuestions_id (doc.questions.getD [])
        { app with
          program_name := doc.program_name.getD app.program_name,
          application_url := doc.application_url.getD app.application_url,
          deadline := doc.deadline.getD app.deadline }
      rw [heq] at h
      exact h2.trans h

/-- C9 counterexample: after a successful `load_from_json` that renames the
program and moves the deadline, the stored id is the one computed at
construction time, not the normalization of the current fields. -/
theorem application_id_stale_cex :
    (load_from_json c9App0 c9Doc).1 = true ∧
    (load_from_json c9App0 c9Doc).2.program_name = "Techstars" ∧
    (load_from_json c9App0 c9Doc).2.deadline = "2025-02-03" ∧
    (load_from_json c9App0 c9Doc).2.id = "y_combinator_20240101" ∧
    computeId ("Techstars") ("2025-02-03") = "techstars_20250203" ∧
    (load_from_json c9App0 c9Doc).2.id
      ≠ computeId (load_from_json c9App0 c9Doc).2.program_name
          (load_from_json c9App0 c9Doc).2.deadline := by
  refine ⟨rfl, rfl, rfl, rfl, rfl, by decide⟩

/-- C9 (amended): the id equals the normalization (lowercase, spaces to
underscores, hyphens stripped) of the program name and deadline the
application was constructed with; no later mutation recomputes it, so
after a `load_from_json` that changes those fields the id is stale. -/
theorem application_id_spec :
    (∀ (n u d : String) (qs : List IncubatorQuestion)
        (pp : Option ProjectProfile),
      (mkApplication n u d qs pp).id = computeId n d) ∧
    (∀ (app : IncubatorApplication) (doc : AppJsonDoc),
      (load_from_json app doc).2.id = app.id) :=
  ⟨fun _ _ _ _ _ => rfl, load_from_json_id⟩

/-! ## C10: load_from_json is permissive, non-atomic and appending -/

theorem loadAnswers_keys (entries : List AnswerEntry) :
    ∀ app : IncubatorApplication,
      (loadAnswers app entries).2.questions.map questionKey
        = app.questions.map questionKey := by
  induction entries with
  | nil => intro app; rfl
  | cons e rest ih =>
    intro app
    cases e with
    | malformed => rfl
    | obj a =>
      cases hq : a.question_id with
      | none =>
        simp only [loadAnswers, hq]
        exact ih _
      | some qid =>
        simp only [loadAnswers, hq]
        rw [ih _]
        simp [answer_question, answerInList_keys]

theorem loadQuestions_true_append (entries : List QuestionEntry) :
    ∀ app app' : IncubatorApplication,
      loadQuestions app entries = (true, app') →
      ∃ ks, app'.questions.map questionKey
              = app.questions.map questionKey ++ ks ∧
        ks.length = entries.length := by
  induction entries with
  | nil =>
    intro app app' h
    have : app = app' := congrArg Prod.snd h
    rw [← this]
    exact ⟨[], by simp, rfl⟩
  | cons e rest ih =>
    intro app app' h
    cases e with
    | malformed => exact absurd (congrArg Prod.fst h) (by simp [loadQuestions])
    | obj d =>
      obtain ⟨ks, hk, hl⟩ := ih _ app' h
      refine ⟨questionKey
          { question_id := d.question_id.getD
              (defaultQid (app.questions.length + 1)),
            question_text := d.question_text.getD (""), max_chars := d.max_chars,
            expected_content := d.expected_content, answered := false,
            answer := "" } :: ks, ?_, by simp [hl]⟩
      rw [hk]
      simp [add_question]

/-- C10: `load_from_json` is not atomic on failure — on a document whose
second questions entry is malformed it returns `false` with the program
name already overwritten and one question already appended — and it always
appends the document's questions to the existing list, so a second
successful call on the same document doubles them. -/
theorem load_from_json_nonatomic :
    ((load_from_json c10App c10BadDoc).1 = false ∧
     (load_from_json c10App c10BadDoc).2.program_name = "Changed" ∧
     c10App.program_name = "Orig" ∧
     (load_from_json c10App c10BadDoc).2.questions.length
        = c10App.questions.length + 1) ∧
    ((load_from_json c10App c10GoodDoc).1 = true ∧
     (load_from_json (load_from_json c10App c10GoodDoc).2 c10GoodDoc).1 = true ∧
     (load_from_json
        (load_from_json c10App c10GoodDoc).2 c10GoodDoc).2.questions.length
        = 2) ∧
    (∀ (app : IncubatorApplication) (doc : AppJsonDoc)
        (app' : IncubatorApplication),
      load_from_json app doc = (true, app') →
      ∃ ks, app'.questions.map questionKey
              = app.questions.map questionKey ++ ks ∧
        ks.length = (doc.questions.getD []).length) := by
  refine ⟨⟨rfl, rfl, rfl, rfl⟩, ⟨rfl, rfl, rfl⟩, ?_⟩
  intro app doc app' h
  simp only [load_from_json] at h
  split at h
  next app2 heq => exact absurd (congrArg Prod.fst h) (by simp)
  next app2 heq =>
    split at h
    next app3 heq2 => exact absurd (congrArg Prod.fst h) (by simp)
    next app3 heq2 =>
      have h3 : app3 = app' := congrArg Prod.snd h
      obtain ⟨ks, hk, hl⟩ := loadQuestions_true_append (doc.questions.getD [])
        { app with
          program_name := doc.program_name.getD app.program_name,
          application_url := doc.application_url.getD app.application_url,
          deadline := doc.deadline.getD app.deadline } app2 heq
      refine ⟨ks, ?_, hl⟩
      have h4 := loadAnswers_keys (doc.answers.getD []) app2
      rw [heq2] at h4
      rw [← h3, h4, hk]

/-- Witness for the appending part of C10 at the concrete good document. -/
theorem load_from_json_nonatomic_witness :
    load_from_json c10App c10GoodDoc
        = (true, (load_from_json c10App c10GoodDoc).2) ∧
    (∃ ks, (load_from_json c10App c10GoodDoc).2.questions.map questionKey
            = c10App.questions.map questionKey ++ ks ∧
      ks.length = (c10GoodDoc.questions.getD []).length) :=
  ⟨rfl,
    load_from_json_nonatomic.2.2 c10App c10GoodDoc
      (load_from_json c10App c10GoodDoc).2 rfl⟩

/-! ## C3 and C4: profile parsing and serialization -/

theorem exceptBind_ok {α β : Type} {x : Except ParseError α}
    {f : α → Except ParseError β} {c : β}
    (h : x >>= f = Except.ok c) : ∃ a, x = Except.ok a ∧ f a = Except.ok c := by
  cases x with
  | ok a => exact ⟨a, rfl, h⟩
  | error e => simp [Bind.bind, Except.bind] at h

theorem req_ok {α : Type} {name : String} {v : Option α} {a : α}
    (h : req name v = Except.ok a) : v = some a := by
  cases v with
  | none => simp [req] at h
  | some x =>
    simp [req] at h
    rw [h]

theorem optUrl_ok {name : String} {v w : Option String}
    (h : optUrl name v = Except.ok w) : w = v := by
  cases v with
  | none =>
    simp [optUrl] at h
    exact h.symm
  | some s =>
    by_cases hv : isValidHttpUrl s
    · simp [optUrl, hv] at h
      exact h.symm
    · simp [optUrl, hv] at h

theorem optEmail_ok {name : String} {v w : Option String}
    (h : optEmail name v = Except.ok w) : w = v := by
  cases v with
  | none =>
    simp [optEmail] at h
    exact h.symm
  | some s =>
    by_cases hv : isValidEmail s
    · simp [optEmail, hv] at h
      exact h.symm
    · simp [optEmail, hv] at h

theorem parseTeamMember_ok {d : TeamMemberDoc} {m : TeamMember}
    (h : parseTeamMember d = Except.ok m) : teamMemberToDict m = d := by
  unfold parseTeamMember at h
  obtain ⟨fn, h1, h⟩ := exceptBind_ok h
  obtain ⟨ro, h2, h⟩ := exceptBind_ok h
  obtain ⟨em, h3, h⟩ := exceptBind_ok h
  obtain ⟨li, h4, h⟩ := exceptBind_ok h
  obtain ⟨gh, h5, h⟩ := exceptBind_ok h
  obtain ⟨bi, h6, h⟩ := exceptBind_ok h
  obtain ⟨sk, h7, h⟩ := exceptBind_ok h
  obtain ⟨ye, h8, h⟩ := exceptBind_ok h
  obtain ⟨ed, h9, h⟩ := exceptBind_ok h
  simp only [pure, Except.pure, Except.ok.injEq] at h
  subst h
  cases d
  have e1 := req_ok h1
  have e2 := req_ok h2
  have e3 := optEmail_ok h3
  have e4 := optUrl_ok h4
  have e5 := optUrl_ok h5
  have e6 := req_ok h6
  have e7 := req_ok h7
  have e8 := req_ok h8
  have e9 := req_ok h9
  simp only at e1 e2 e3 e4 e5 e6 e7 e8 e9
  simp [teamMemberToDict, e1, e2, e3, e4, e5, e6, e7, e8, e9]

theorem parseTeamList_ok :
    ∀ {docs : List TeamMemberDoc} {ms : List TeamMember},
      parseTeamList docs = Except.ok ms → ms.map teamMemberToDict = docs := by
  intro docs
  induction docs with
  | nil =>
    intro ms h
    simp [parseTeamList] at h
    subst h
    rfl
  | cons d rest ih =>
    intro ms h
    unfold parseTeamList at h
    obtain ⟨m, h1, h⟩ := exceptBind_ok h
    obtain ⟨ms', h2, h⟩ := exceptBind_ok h
    simp only [pure, Except.pure, Except.ok.injEq] at h
    subst h
    simp [parseTeamMember_ok h1, ih h2]

theorem parseBasicInfo_ok {d : ProjectBasicInfoDoc} {b : ProjectBasicInfo}
    (h : parseBasicInfo d = Except.ok b) : basicInfoToDict b = d := by
  unfold parseBasicInfo at h
  obtain ⟨pn, h1, h⟩ := exceptBind_ok h
  obtain ⟨tg, h2, h⟩ := exceptBind_ok h
  obtain ⟨we, h3, h⟩ := exceptBind_ok h
  obtain ⟨gr, h4, h⟩ := exceptBind_ok h
  obtain ⟨ds, h5, h⟩ := exceptBind_ok h
  obtain ⟨se, h6, h⟩ := exceptBind_ok h
  obtain ⟨ind, h7, h⟩ := exceptBind_ok h
  simp only [pure, Except.pure, Except.ok.injEq] at h
  subst h
  cases d
  have e1 := req_ok h1
  have e2 := req_ok h2
  have e3 := optUrl_ok h3
  have e4 := optUrl_ok h4
  have e5 := req_ok h5
  have e6 := req_ok h6
  have e7 := req_ok h7
  simp only at e1 e2 e3 e4 e5 e6 e7
  simp [basicInfoToDict, e1, e2, e3, e4, e5, e6, e7]

theorem parseDetails_ok {d : ProjectDetailsDoc} {x : ProjectDetails}
    (h : parseDetails d = Except.ok x) : detailsToDict x = d := by
  unfold parseDetails at h
  obtain ⟨ps, h1, h⟩ := exceptBind_ok h
  obtain ⟨sd, h2, h⟩ := exceptBind_ok h
  obtain ⟨uv, h3, h⟩ := exceptBind_ok h
  obtain ⟨ta, h4, h⟩ := exceptBind_ok h
  obtain ⟨bm, h5, h⟩ := exceptBind_ok h
  obtain ⟨rs, h6, h⟩ := exceptBind_ok h
  obtain ⟨co, h7, h⟩ := exceptBind_ok h
  obtain ⟨rm, h8, h⟩ := exceptBind_ok h
  simp only [pure, Except.pure, Except.ok.injEq] at h
  subst h
  cases d
  have e1 := req_ok h1
  have e2 := req_ok h2
  have e3 := req_ok h3
  have e4 := req_ok h4
  have e5 := req_ok h5
  have e6 := req_ok h6
  have e7 := req_ok h7
  have e8 := req_ok h8
  simp only at e1 e2 e3 e4 e5 e6 e7 e8
  simp [detailsToDict, e1, e2, e3, e4, e5, e6, e7, e8]

theorem parseTechnical_ok {d : TechnicalDetailsDoc} {t : TechnicalDetails}
    (h : parseTechnical d = Except.ok t) : technicalToDict t = d := by
  unfold parseTechnical at h
  obtain ⟨ts, h1, h⟩ := exceptBind_ok h
  obtain ⟨cc, h2, h⟩ := exceptBind_ok h
  obtain ⟨fn, h3, h⟩ := exceptBind_ok h
  simp only [pure, Except.pure, Except.ok.injEq] at h
  subst h
  cases d
  have e1 := req_ok h1
  have e2 := req_ok h2
  have e3 := req_ok h3
  simp only at e1 e2 e3
  simp [technicalToDict, e1, e2, e3]

theorem parseFunding_ok {d : FundingDoc} {f : Funding}
    (h : parseFunding d = Except.ok f) : fundingToDict f = d := by
  unfold parseFunding at h
  simp only [Except.ok.injEq] at h
  subst h
  cases d
  rfl

theorem parsePreferences_ok {d : IncubatorPreferencesDoc}
    {p : IncubatorPreferences} (h : parsePreferences d = Except.ok p) :
    preferencesToDict p = d := by
  unfold parsePreferences at h
  obtain ⟨rn, h1, h⟩ := exceptBind_ok h
  obtain ⟨pl, h2, h⟩ := exceptBind_ok h
  obtain ⟨rw1, h3, h⟩ := exceptBind_ok h
  obtain ⟨rp, h4, h⟩ := exceptBind_ok h
  simp only [pure, Except.pure, Except.ok.injEq] at h
  subst h
  cases d
  have e1 := req_ok h1
  have e2 := req_ok h2
  have e3 := req_ok h3
  have e4 := req_ok h4
  simp only at e1 e2 e3 e4
  simp [preferencesToDict, e1, e2, e3, e4]

theorem from_yaml_sections {doc : ProfileDoc} {p : ProjectProfile}
    (h : ProjectProfile.from_yaml doc = Except.ok p) :
    p.team.map teamMemberToDict = doc.team.getD [] ∧
    basicInfoToDict p.basic_info = doc.basic_info.getD emptyBasicInfoDoc ∧
    detailsToDict p.details = doc.details.getD emptyDetailsDoc ∧
    technicalToDict p.technical = doc.technical.getD emptyTechnicalDoc ∧
    fundingToDict p.funding = doc.funding.getD emptyFundingDoc ∧
    preferencesToDict p.incubator_preferences
      = doc.incubator_preferences.getD emptyPreferencesDoc := by
  unfold ProjectProfile.from_yaml at h
  obtain ⟨tm, h1, h⟩ := exceptBind_ok h
  obtain ⟨bi, h2, h⟩ := exceptBind_ok h
  obtain ⟨de, h3, h⟩ := exceptBind_ok h
  obtain ⟨te, h4, h⟩ := exceptBind_ok h
  obtain ⟨fu, h5, h⟩ := exceptBind_ok h
  obtain ⟨ip, h6, h⟩ := exceptBind_ok h
  simp only [pure, Except.pure, Except.ok.injEq] at h
  subst h
  exact ⟨parseTeamList_ok h1, parseBasicInfo_ok h2, parseDetails_ok h3,
    parseTechnical_ok h4, parseFunding_ok h5, parsePreferences_ok h6⟩

/-- C3 counterexample: a document whose required string fields are present
but empty parses successfully, and the parsed profile carries the empty
strings — so parsing does not fail on empty required fields and parsed
profiles may have empty required string fields. -/
theorem empty_required_accepted_cex :
    ∃ p, ProjectProfile.from_yaml c3EmptyDoc = Except.ok p ∧
      p.basic_info.project_name = "" ∧ p.basic_info.tagline = "" :=
  ⟨_, rfl, rfl, rfl⟩

/-- C3 (amended): when a required field is missing — directly, or because
the section that carries it is absent and defaults to the empty mapping —
`from_yaml` fails with a `ParseError`; a required string field that is
present but empty is accepted, so parsed profiles need not have non-empty
required strings. -/
theorem from_yaml_missing_required (doc : ProfileDoc)
    (h : hasMissingRequired doc = true) :
    ∃ e, ProjectProfile.from_yaml doc = Except.error e := by
  cases hfy : ProjectProfile.from_yaml doc with
  | error e => exact ⟨e, rfl⟩
  | ok p =>
    exfalso
    obtain ⟨s1, s2, s3, s4, s5, s6⟩ := from_yaml_sections hfy
    rw [hasMissingRequired, ← s1, ← s2, ← s3, ← s4, ← s6] at h
    simp [List.any_map, teamMemberMissing, teamMemberToDict, basicInfoMissing,
      basicInfoToDict, detailsMissing, detailsToDict, technicalMissing,
      technicalToDict, preferencesMissing, preferencesToDict,
      Function.comp] at h

/-- Witness for the amended C3: the all-absent document has missing
required fields and fails to parse. -/
theorem from_yaml_missing_required_witness :
    hasMissingRequired c3MissingDoc = true ∧
    (∃ e, ProjectProfile.from_yaml c3MissingDoc = Except.error e) :=
  ⟨rfl, from_yaml_missing_required c3MissingDoc rfl⟩

/-- C4: parsing then serializing reproduces every field of a document whose
sections are all present (in particular one with every optional field
populated); and for a document without the funding section — all of whose
fields are optional — the serialized form carries the explicit absent
marker `none` for each of them, never an empty string. -/
theorem from_yaml_to_dict_roundtrip :
    (∀ (doc : ProfileDoc) (p : ProjectProfile),
      ProjectProfile.from_yaml doc = Except.ok p →
      doc.team.isSome = true → doc.basic_info.isSome = true →
      doc.details.isSome = true → doc.technical.isSome = true →
      doc.funding.isSome = true → doc.incubator_preferences.isSome = true →
      ProjectProfile.to_dict p = doc) ∧
    (∀ (doc : ProfileDoc) (p : ProjectProfile),
      ProjectProfile.from_yaml doc = Except.ok p → doc.funding = none →
      (ProjectProfile.to_dict p).funding = some emptyFundingDoc ∧
      emptyFundingDoc.funding_to_date = none ∧
      emptyFundingDoc.use_of_funds = none) := by
  constructor
  · intro doc p h ht hb hd hte hf hip
    obtain ⟨s1, s2, s3, s4, s5, s6⟩ := from_yaml_sections h
    obtain ⟨tl, e1⟩ := Option.isSome_iff_exists.mp ht
    obtain ⟨bd, e2⟩ := Option.isSome_iff_exists.mp hb
    obtain ⟨dd, e3⟩ := Option.isSome_iff_exists.mp hd
    obtain ⟨td, e4⟩ := Option.isSome_iff_exists.mp hte
    obtain ⟨fd, e5⟩ := Option.isSome_iff_exists.mp hf
    obtain ⟨pd, e6⟩ := Option.isSome_iff_exists.mp hip
    rw [e1] at s1
    rw [e2] at s2
    rw [e3] at s3
    rw [e4] at s4
    rw [e5] at s5
    rw [e6] at s6
    simp only [Option.getD_some] at s1 s2 s3 s4 s5 s6
    rcases doc with ⟨d1, d2, d3, d4, d5, d6⟩
    simp only at e1 e2 e3 e4 e5 e6
    subst e1
    subst e2
    subst e3
    subst e4
    subst e5
    subst e6
    simp [ProjectProfile.to_dict, s1, s2, s3, s4, s5, s6]
  · intro doc p h hf
    obtain ⟨-, -, -, -, s5, -⟩ := from_yaml_sections h
    rw [hf] at s5
    simp only [Option.getD_none] at s5
    exact ⟨by simp [ProjectProfile.to_dict, s5], rfl, rfl⟩

/-- Witness for C4 at the fully-populated document: parse succeeds and
serialization reproduces it exactly. -/
theorem from_yaml_to_dict_roundtrip_witness :
    ∃ p, ProjectProfile.from_yaml c4Doc = Except.ok p ∧
      ProjectProfile.to_dict p = c4Doc :=
  ⟨_, rfl,
    from_yaml_to_dict_roundtrip.1 c4Doc _ rfl rfl rfl rfl rfl rfl rfl⟩
